import Mathlib

/-!
# Checklist widgets and search index of the roboticsUI documentation

Shallow embedding of

* `src/_setup/docs_src/_static/checklist.js` (the checkbox persistence widget, namespace
  `Persist`),
* `src/docs/_static/checklist.js` (the checkbox click-notification widget, namespace `Notify`),
* `src/docs/searchindex.js` (the argument of `Search.setIndex`, namespace `SearchIndex`).

The DOM is modelled as far as the scripts touch it: a document is the list of its
`input[type=checkbox]` elements in document order (what `querySelectorAll` returns), an element
is identified by its position in that list, and each element carries its `checked` property and
its `nextSibling`.  `localStorage` is a list of key/value pairs with the Web Storage `getItem`
and `setItem` (unbounded quota, access always granted).
-/

namespace Checklist

/-! ## DOM and browser primitives used by both scripts -/

/-- A DOM node as far as the scripts read it: its `textContent`. -/
structure Node where
  textContent : String
deriving DecidableEq, Repr

/-- An `input[type=checkbox]` element: the `checked` property and the `nextSibling` node,
which is `none` when the checkbox is the last child of its parent (`null` in the DOM). -/
structure Checkbox where
  checked : Bool
  nextSibling : Option Node
deriving DecidableEq, Repr

/-- Errors a handler can raise: the `TypeError` of reading a property of `null`. -/
inductive JsError where
  | typeError
deriving DecidableEq, Repr

/-- ECMAScript `WhiteSpace` and `LineTerminator` code points, the characters that
`String.prototype.trim` strips. -/
def isWhiteSpace (c : Char) : Bool :=
  let n := c.toNat
  n == 0x9 || n == 0xA || n == 0xB || n == 0xC || n == 0xD || n == 0x20 || n == 0xA0 ||
    n == 0x1680 || (0x2000 ≤ n && n ≤ 0x200A) || n == 0x2028 || n == 0x2029 || n == 0x202F ||
    n == 0x205F || n == 0x3000 || n == 0xFEFF

/-- `String.prototype.trim`: the string without its leading and trailing white space. -/
def trim (s : String) : String :=
  String.mk ((s.data.dropWhile isWhiteSpace).reverse.dropWhile isWhiteSpace).reverse

/-- `ToString` applied to a boolean, as `setItem` does to its value argument. -/
def booleanToString (b : Bool) : String :=
  if b then "true" else "false"

/-- The `localStorage` area: key/value pairs of strings. -/
abbrev Storage := List (String × String)

/-- `localStorage.getItem(key)`: the stored value, `none` (`null`) when the key is absent. -/
def getItem : Storage → String → Option String
  | [], _ => none
  | (k, v) :: rest, key => if k = key then some v else getItem rest key

/-- `localStorage.setItem(key, value)`: overwrite the entry of `key`, or append a new one. -/
def setItem : Storage → String → String → Storage
  | [], key, value => [(key, value)]
  | (k, v) :: rest, key, value =>
    if k = key then (key, value) :: rest else (k, v) :: setItem rest key value

/-- Flip the `checked` property of the element at position `i` (what a user click does before
the `click` and `change` events are dispatched). -/
def flipChecked : List Checkbox → Nat → List Checkbox
  | [], _ => []
  | checkbox :: rest, 0 => { checkbox with checked := !checkbox.checked } :: rest
  | checkbox :: rest, i + 1 => checkbox :: flipChecked rest i

/-! ## The persistence widget: `src/_setup/docs_src/_static/checklist.js` -/

namespace Persist

/-- The expression `checkbox.nextSibling.textContent.trim()`: it raises a `TypeError` when
`nextSibling` is `null`. -/
def storageKey (checkbox : Checkbox) : Except JsError String :=
  match checkbox.nextSibling with
  | none => .error .typeError
  | some sibling => .ok (trim sibling.textContent)

/-- The `change` listener closure of `checkbox`:
`localStorage.setItem(checkbox.nextSibling.textContent.trim(), checkbox.checked)`. -/
def onChange (localStorage : Storage) (checkbox : Checkbox) : Except JsError Storage :=
  match storageKey checkbox with
  | .error e => .error e
  | .ok key => .ok (setItem localStorage key (booleanToString checkbox.checked))

/-- A loaded page: the checkboxes with their live state, and one entry per
`addEventListener("change", ...)` call, naming the position of the checkbox the listener was
registered on (and closes over). -/
structure Page where
  checkboxes : List Checkbox
  changeListeners : List Nat
deriving DecidableEq, Repr

/-- What running the `DOMContentLoaded` handler leaves behind: the page, and the error that
aborted the handler, if any. -/
structure LoadResult where
  page : Page
  error : Option JsError
deriving DecidableEq, Repr

/-- The first statement pair of the `forEach` callback ("Load saved state"): read `state` under
the checkbox's key and set `checked` when `state === "true"`.  Nothing else is assigned. -/
def loadSavedState (localStorage : Storage) (checkbox : Checkbox) : Except JsError Checkbox :=
  match storageKey checkbox with
  | .error e => .error e
  | .ok key =>
    let state := getItem localStorage key
    .ok (if state = some "true" then { checkbox with checked := true } else checkbox)

/-- The `forEach` loop of the `DOMContentLoaded` handler over the checkboxes from position `i`
on.  For each checkbox: load the saved state (a `TypeError` here aborts the loop, leaving the
remaining checkboxes untouched and without listener), then register the `change` listener. -/
def forEachFrom (localStorage : Storage) : Nat → List Checkbox → LoadResult
  | _, [] => ⟨⟨[], []⟩, none⟩
  | i, checkbox :: rest =>
    match loadSavedState localStorage checkbox with
    | .error e => ⟨⟨checkbox :: rest, []⟩, some e⟩
    | .ok checkbox1 =>
      let r := forEachFrom localStorage (i + 1) rest
      ⟨⟨checkbox1 :: r.page.checkboxes, i :: r.page.changeListeners⟩, r.error⟩

/-- The `DOMContentLoaded` handler run on a freshly parsed document. -/
def onDOMContentLoaded (localStorage : Storage) (document : List Checkbox) : LoadResult :=
  forEachFrom localStorage 0 document

/-- Run the `change` listeners in registration order for an event on the element at position
`i`, whose current state is `checkbox`.  A listener that raises leaves the storage as it was. -/
def runChangeListeners (checkbox : Checkbox) (i : Nat) : List Nat → Storage → Storage
  | [], localStorage => localStorage
  | l :: ls, localStorage =>
    if l = i then
      match onChange localStorage checkbox with
      | .ok s => runChangeListeners checkbox i ls s
      | .error _ => runChangeListeners checkbox i ls localStorage
    else runChangeListeners checkbox i ls localStorage

/-- A browser tab on the documentation site: the origin's storage and the current page. -/
structure Browser where
  localStorage : Storage
  page : Page
deriving DecidableEq, Repr

/-- Dispatch a `change` event on the checkbox at position `i` of the current page. -/
def dispatchChange (b : Browser) (i : Nat) : Browser :=
  match b.page.checkboxes[i]? with
  | none => b
  | some checkbox =>
    { b with localStorage := runChangeListeners checkbox i b.page.changeListeners b.localStorage }

/-- The user toggles the checkbox at position `i`: its `checked` flips, then `change` fires. -/
def toggle (b : Browser) (i : Nat) : Browser :=
  dispatchChange { b with page := { b.page with checkboxes := flipChecked b.page.checkboxes i } } i

/-- The tab (re)loads a document with the given markup: the page is rebuilt from the markup
and the `DOMContentLoaded` handler runs against the current storage. -/
def reload (b : Browser) (markup : List Checkbox) : Browser :=
  { b with page := (onDOMContentLoaded b.localStorage markup).page }

/-- What can happen in a tab. -/
inductive Event where
  | reload (markup : List Checkbox)
  | toggle (i : Nat)
deriving DecidableEq, Repr

/-- One event. -/
def step (b : Browser) : Event → Browser
  | .reload markup => reload b markup
  | .toggle i => toggle b i

/-- A sequence of events, oldest first. -/
def run (b : Browser) (events : List Event) : Browser :=
  events.foldl step b

/-- A tab before anything was loaded or stored. -/
def Browser.initial : Browser :=
  ⟨[], ⟨[], []⟩⟩

end Persist

/-! ## The notification widget: `src/docs/_static/checklist.js` -/

namespace Notify

/-- The `click` listener: `alert("Item " + (event.target.checked ? "completed" : "unchecked")
+ "!")`; the result is the text handed to `alert`. -/
def onClick (target : Checkbox) : String :=
  "Item " ++ (if target.checked then "completed" else "unchecked") ++ "!"

/-- The `forEach` loop of the `DOMContentLoaded` handler from position `i` on: one `click`
listener is registered per checkbox; the result lists, per `addEventListener` call, the
position of the checkbox it was called on. -/
def forEachFrom : Nat → List Checkbox → List Nat
  | _, [] => []
  | i, _ :: rest => i :: forEachFrom (i + 1) rest

/-- The `DOMContentLoaded` handler: the `click` listeners it registers. -/
def onDOMContentLoaded (document : List Checkbox) : List Nat :=
  forEachFrom 0 document

/-- The alerts raised, in order, by the listeners registered on the element at position `i`
when a `click` event with target `target` is dispatched on it. -/
def runClickListeners (target : Checkbox) (i : Nat) : List Nat → List String
  | [] => []
  | l :: ls =>
    if l = i then onClick target :: runClickListeners target i ls
    else runClickListeners target i ls

/-- The user clicks the checkbox at position `i`: its `checked` flips, then the `click` event
is dispatched with the checkbox as target.  The result is the list of alerts raised. -/
def click (document : List Checkbox) (clickListeners : List Nat) (i : Nat) : List String :=
  match (flipChecked document i)[i]? with
  | none => []
  | some target => runClickListeners target i clickListeners

end Notify

end Checklist

/-! ## The search index: `src/docs/searchindex.js`

The object literal handed to `Search.setIndex`, restricted to the document tables `docnames`,
`filenames`, `titles` and the two title mappings `alltitles` and `titleterms`.  Mappings are
lists of key/value pairs in source order. -/

namespace SearchIndex

/-- A value of the `titleterms` mapping: a single document number, or an array of them. -/
inductive DocRef where
  | one (doc : Nat)
  | many (docs : List Nat)
deriving DecidableEq, Repr

/-- The document numbers a `titleterms` value names. -/
def DocRef.docs : DocRef → List Nat
  | .one doc => [doc]
  | .many docs => docs

/-- The `docnames` array. -/
def docnames : List String :=
  ["Actions",
   "Common Errors",
   "Databases",
   "Fireworks",
   "Installation",
   "Quickstart",
   "Robot Run Checklist",
   "Settings",
   "Utils and Snapshots",
   "index",
   "robotics_api",
   "robotics_api.actions",
   "robotics_api.fireworks",
   "robotics_api.fireworks.fw_config",
   "robotics_api.snapshots",
   "robotics_api.utils"]

/-- The `filenames` array. -/
def filenames : List String :=
  ["Actions.md",
   "Common Errors.md",
   "Databases.md",
   "Fireworks.md",
   "Installation.md",
   "Quickstart.md",
   "Robot Run Checklist.md",
   "Settings.md",
   "Utils and Snapshots.md",
   "index.rst",
   "robotics_api.rst",
   "robotics_api.actions.rst",
   "robotics_api.fireworks.rst",
   "robotics_api.fireworks.fw_config.rst",
   "robotics_api.snapshots.rst",
   "robotics_api.utils.rst"]

/-- The `titles` array. -/
def titles : List String :=
  ["Actions",
   "Common Errors",
   "Robotics Databases",
   "Fireworks",
   "Installations",
   "QuickStart",
   "Robot Run Checklist",
   "Settings",
   "Utils",
   "Welcome to the D<sup>3</sup>TaLES Robotics API documentation!",
   "robotics_api package",
   "robotics_api.actions package",
   "robotics_api.fireworks package",
   "robotics_api.fireworks.fw_config package",
   "robotics_api.snapshots package",
   "robotics_api.utils package"]

/-- The `alltitles` mapping: title text to its occurrences, each a document number and an
anchor (`none` for `null`). -/
def alltitles : List (String × List (Nat × Option String)) :=
  [("1. DB Manipulations", [(0, some "db-manipulations")]),
   ("2. Standard Actions", [(0, some "standard-actions")]),
   ("3. System Tests", [(0, some "system-tests")]),
   ("Actions", [(0, none)]),
   ("Activate Environment", [(4, some "activate-environment")]),
   ("Clone this GitHub Repository", [(4, some "clone-this-github-repository")]),
   ("Common Errors", [(1, none)]),
   ("Core Components:", [(0, some "core-components"), (0, some "id2")]),
   ("Create Environment", [(4, some "create-environment")]),
   ("Creating Robotic Workflows: ExpFlow", [(5, some "creating-robotic-workflows-expflow")]),
   ("Detailed Code Docs", [(9, none)]),
   ("Example Usage:", [(0, some "example-usage")]),
   ("Fireworks", [(3, none)]),
   ("High-Level Workflow", [(0, some "high-level-workflow")]),
   ("Indices and tables", [(9, some "indices-and-tables")]),
   ("Installations", [(4, none)]),
   ("Managing Robotic Workflows", [(5, some "managing-robotic-workflows")]),
   ("Module contents", [(10, some "module-robotics_api"), (11, some "module-robotics_api.actions"), (12, some "module-robotics_api.fireworks"), (13, some "module-robotics_api.fireworks.fw_config"), (14, some "module-robotics_api.snapshots"), (15, some "module-robotics_api.utils")]),
   ("Modules and More", [(9, none)]),
   ("Overview", [(0, some "overview"), (9, none)]),
   ("Purpose:", [(0, some "purpose"), (0, some "id1")]),
   ("QuickStart", [(5, none)]),
   ("Robot Run Checklist", [(6, none)]),
   ("Robotics Databases", [(2, none)]),
   ("Running an Experiment…", [(5, some "running-an-experiment")]),
   ("Settings", [(7, none)]),
   ("Snapshots", [(8, some "snapshots")]),
   ("Submodules", [(10, some "submodules"), (11, some "submodules"), (12, some "submodules"), (13, some "submodules"), (15, some "submodules")]),
   ("Subpackages", [(10, some "subpackages"), (12, some "subpackages")]),
   ("Utils", [(8, none)]),
   ("Welcome to the D3TaLES Robotics API documentation!", [(9, none)]),
   ("robotics_api package", [(10, none)]),
   ("robotics_api.actions package", [(11, none)]),
   ("robotics_api.actions.db_manipulations module", [(11, some "robotics-api-actions-db-manipulations-module")]),
   ("robotics_api.actions.standard_actions module", [(11, some "robotics-api-actions-standard-actions-module")]),
   ("robotics_api.actions.system_tests module", [(11, some "robotics-api-actions-system-tests-module")]),
   ("robotics_api.fireworks package", [(12, none)]),
   ("robotics_api.fireworks.Firetasks_Actions module", [(12, some "robotics-api-fireworks-firetasks-actions-module")]),
   ("robotics_api.fireworks.Firetasks_Processing module", [(12, some "robotics-api-fireworks-firetasks-processing-module")]),
   ("robotics_api.fireworks.Fireworks module", [(12, some "robotics-api-fireworks-fireworks-module")]),
   ("robotics_api.fireworks.Workflow_Writer module", [(12, some "robotics-api-fireworks-workflow-writer-module")]),
   ("robotics_api.fireworks.fw_config package", [(13, none)]),
   ("robotics_api.fireworks.fw_config.test_populate_lpad module", [(13, some "robotics-api-fireworks-fw-config-test-populate-lpad-module")]),
   ("robotics_api.settings module", [(10, some "module-robotics_api.settings")]),
   ("robotics_api.snapshots package", [(14, none)]),
   ("robotics_api.utils package", [(15, none)]),
   ("robotics_api.utils.base_utils module", [(15, some "robotics-api-utils-base-utils-module")]),
   ("robotics_api.utils.kinova_gripper module", [(15, some "robotics-api-utils-kinova-gripper-module")]),
   ("robotics_api.utils.kinova_move module", [(15, some "robotics-api-utils-kinova-move-module")]),
   ("robotics_api.utils.kinova_utils module", [(15, some "robotics-api-utils-kinova-utils-module")]),
   ("robotics_api.utils.mongo_dbs module", [(15, some "robotics-api-utils-mongo-dbs-module")]),
   ("robotics_api.utils.potentiostat_hp module", [(15, some "robotics-api-utils-potentiostat-hp-module")]),
   ("robotics_api.utils.potentiostat_kbio module", [(15, some "robotics-api-utils-potentiostat-kbio-module")]),
   ("robotics_api.utils.processing_utils module", [(15, some "robotics-api-utils-processing-utils-module")])]

/-- The `titleterms` mapping: stemmed title word to the documents whose titles contain it. -/
def titleterms : List (String × DocRef) :=
  [("1", DocRef.one 0),
   ("2", DocRef.one 0),
   ("3", DocRef.one 0),
   ("action", DocRef.many [0, 11]),
   ("activ", DocRef.one 4),
   ("an", DocRef.one 5),
   ("api", DocRef.one 9),
   ("base_util", DocRef.one 15),
   ("checklist", DocRef.one 6),
   ("clone", DocRef.one 4),
   ("code", DocRef.one 9),
   ("common", DocRef.one 1),
   ("compon", DocRef.one 0),
   ("content", DocRef.many [10, 11, 12, 13, 14, 15]),
   ("core", DocRef.one 0),
   ("creat", DocRef.many [4, 5]),
   ("d3tale", DocRef.one 9),
   ("databas", DocRef.one 2),
   ("db", DocRef.one 0),
   ("db_manipul", DocRef.one 11),
   ("detail", DocRef.one 9),
   ("doc", DocRef.one 9),
   ("document", DocRef.one 9),
   ("environ", DocRef.one 4),
   ("error", DocRef.one 1),
   ("exampl", DocRef.one 0),
   ("experi", DocRef.one 5),
   ("expflow", DocRef.one 5),
   ("firetasks_act", DocRef.one 12),
   ("firetasks_process", DocRef.one 12),
   ("firework", DocRef.many [3, 12, 13]),
   ("fw_config", DocRef.one 13),
   ("github", DocRef.one 4),
   ("high", DocRef.one 0),
   ("indic", DocRef.one 9),
   ("instal", DocRef.one 4),
   ("kinova_gripp", DocRef.one 15),
   ("kinova_mov", DocRef.one 15),
   ("kinova_util", DocRef.one 15),
   ("level", DocRef.one 0),
   ("manag", DocRef.one 5),
   ("manipul", DocRef.one 0),
   ("modul", DocRef.many [9, 10, 11, 12, 13, 14, 15]),
   ("mongo_db", DocRef.one 15),
   ("more", DocRef.one 9),
   ("overview", DocRef.many [0, 9]),
   ("packag", DocRef.many [10, 11, 12, 13, 14, 15]),
   ("potentiostat_hp", DocRef.one 15),
   ("potentiostat_kbio", DocRef.one 15),
   ("processing_util", DocRef.one 15),
   ("purpos", DocRef.one 0),
   ("quickstart", DocRef.one 5),
   ("repositori", DocRef.one 4),
   ("robot", DocRef.many [2, 5, 6, 9]),
   ("robotics_api", DocRef.many [10, 11, 12, 13, 14, 15]),
   ("run", DocRef.many [5, 6]),
   ("set", DocRef.many [7, 10]),
   ("snapshot", DocRef.many [8, 14]),
   ("standard", DocRef.one 0),
   ("standard_act", DocRef.one 11),
   ("submodul", DocRef.many [10, 11, 12, 13, 15]),
   ("subpackag", DocRef.many [10, 12]),
   ("system", DocRef.one 0),
   ("system_test", DocRef.one 11),
   ("tabl", DocRef.one 9),
   ("test", DocRef.one 0),
   ("test_populate_lpad", DocRef.one 13),
   ("thi", DocRef.one 4),
   ("usag", DocRef.one 0),
   ("util", DocRef.many [8, 15]),
   ("welcom", DocRef.one 9),
   ("workflow", DocRef.many [0, 5]),
   ("workflow_writ", DocRef.one 12)]

/-- Every document number occurring in the `alltitles` mapping, in source order. -/
def alltitlesDocs : List Nat :=
  alltitles.flatMap fun entry => entry.2.map Prod.fst

/-- Every document number occurring in the `titleterms` mapping, in source order. -/
def titletermsDocs : List Nat :=
  titleterms.flatMap fun entry => entry.2.docs

end SearchIndex

/-! ## Facts about the primitives -/

namespace Checklist

theorem getItem_setItem_self (s : Storage) (key value : String) :
    getItem (setItem s key value) key = some value := by
  induction s with
  | nil => simp [setItem, getItem]
  | cons p rest ih =>
    obtain ⟨k, v⟩ := p
    by_cases h : k = key
    · simp [setItem, getItem, h]
    · simp [setItem, getItem, h, ih]

theorem getItem_setItem_other (s : Storage) (key value other : String) (h : other ≠ key) :
    getItem (setItem s key value) other = getItem s other := by
  induction s with
  | nil => simp [setItem, getItem, Ne.symm h]
  | cons p rest ih =>
    obtain ⟨k, v⟩ := p
    by_cases hk : k = key
    · subst hk
      simp [setItem, getItem, Ne.symm h]
    · by_cases ho : k = other
      · subst ho
        simp [setItem, getItem, hk]
      · simp [setItem, getItem, hk, ho, ih]

theorem mem_setItem (s : Storage) (key value : String) (p : String × String)
    (h : p ∈ setItem s key value) : p ∈ s ∨ p = (key, value) := by
  induction s with
  | nil => simpa [setItem] using h
  | cons q rest ih =>
    obtain ⟨k, v⟩ := q
    by_cases hk : k = key
    · simp only [setItem, hk, if_true, List.mem_cons] at h
      rcases h with h | h
      · exact Or.inr h
      · exact Or.inl (List.mem_cons_of_mem _ h)
    · simp only [setItem, hk, if_false, List.mem_cons] at h
      rcases h with h | h
      · exact Or.inl (by simp [h])
      · rcases ih h with h1 | h1
        · exact Or.inl (List.mem_cons_of_mem _ h1)
        · exact Or.inr h1

theorem getItem_setItem_ne_none (s : Storage) (key value other : String)
    (h : getItem s other ≠ none) : getItem (setItem s key value) other ≠ none := by
  by_cases ho : other = key
  · subst ho
    simp [getItem_setItem_self]
  · rw [getItem_setItem_other s key value other ho]
    exact h

theorem flipChecked_length (cbs : List Checkbox) (i : Nat) :
    (flipChecked cbs i).length = cbs.length := by
  induction cbs generalizing i with
  | nil => simp [flipChecked]
  | cons c rest ih =>
    cases i with
    | zero => simp [flipChecked]
    | succ i => simp [flipChecked, ih]

theorem flipChecked_getElem?_self (cbs : List Checkbox) (i : Nat) :
    (flipChecked cbs i)[i]? = (cbs[i]?).map fun c => { c with checked := !c.checked } := by
  induction cbs generalizing i with
  | nil => simp [flipChecked]
  | cons c rest ih =>
    cases i with
    | zero => simp [flipChecked]
    | succ i => simp [flipChecked, ih]

theorem flipChecked_getElem?_other (cbs : List Checkbox) (i j : Nat) (h : j ≠ i) :
    (flipChecked cbs i)[j]? = cbs[j]? := by
  induction cbs generalizing i j with
  | nil => simp [flipChecked]
  | cons c rest ih =>
    cases i with
    | zero =>
      cases j with
      | zero => exact absurd rfl h
      | succ j => simp [flipChecked]
    | succ i =>
      cases j with
      | zero => simp [flipChecked]
      | succ j => simp [flipChecked, ih i j (by omega)]

theorem flipChecked_map_nextSibling (cbs : List Checkbox) (i : Nat) :
    (flipChecked cbs i).map Checkbox.nextSibling = cbs.map Checkbox.nextSibling := by
  induction cbs generalizing i with
  | nil => simp [flipChecked]
  | cons c rest ih =>
    cases i with
    | zero => simp [flipChecked]
    | succ i => simp [flipChecked, ih]

namespace Persist

theorem storageKey_of_sibling (cb : Checkbox) (n : Node) (h : cb.nextSibling = some n) :
    storageKey cb = .ok (trim n.textContent) := by
  simp [storageKey, h]

theorem onChange_of_sibling (s : Storage) (cb : Checkbox) (n : Node)
    (h : cb.nextSibling = some n) :
    onChange s cb = .ok (setItem s (trim n.textContent) (booleanToString cb.checked)) := by
  simp [onChange, storageKey, h]

theorem loadSavedState_of_sibling (s : Storage) (cb : Checkbox) (n : Node)
    (h : cb.nextSibling = some n) :
    loadSavedState s cb =
      .ok (if getItem s (trim n.textContent) = some "true" then { cb with checked := true }
        else cb) := by
  simp [loadSavedState, storageKey, h]

/-- The loop reaches position `j` when every earlier checkbox has a sibling, and leaves there
the checkbox with its saved state loaded. -/
theorem forEachFrom_getElem? (s : Storage) (doc : List Checkbox) (i j : Nat) (cb : Checkbox)
    (n : Node) (hj : doc[j]? = some cb) (hn : cb.nextSibling = some n)
    (hpre : ∀ k c, k < j → doc[k]? = some c → c.nextSibling ≠ none) :
    (forEachFrom s i doc).page.checkboxes[j]? =
      some (if getItem s (trim n.textContent) = some "true" then { cb with checked := true }
        else cb) := by
  induction doc generalizing i j with
  | nil => simp at hj
  | cons c rest ih =>
    cases j with
    | zero =>
      simp only [List.getElem?_cons_zero, Option.some.injEq] at hj
      subst hj
      simp [forEachFrom, loadSavedState_of_sibling s c n hn]
    | succ j =>
      simp only [List.getElem?_cons_succ] at hj
      have hc : c.nextSibling ≠ none := hpre 0 c (by omega) (by simp)
      obtain ⟨m, hm⟩ := Option.ne_none_iff_exists'.mp hc
      have hrest := ih (i + 1) j hj fun k c1 hk hc1 => hpre (k + 1) c1 (by omega) (by simpa using hc1)
      simp [forEachFrom, loadSavedState_of_sibling s c m hm, hrest]

/-- A checkbox whose key is not stored as `"true"` is left as it was, whether or not the loop
reaches it. -/
theorem forEachFrom_keeps (s : Storage) (doc : List Checkbox) (i j : Nat) (cb : Checkbox)
    (hj : doc[j]? = some cb)
    (hs : ∀ n, cb.nextSibling = some n → getItem s (trim n.textContent) ≠ some "true") :
    (forEachFrom s i doc).page.checkboxes[j]? = some cb := by
  induction doc generalizing i j with
  | nil => simp at hj
  | cons c rest ih =>
    cases hc : c.nextSibling with
    | none => simpa [forEachFrom, loadSavedState, storageKey, hc] using hj
    | some m =>
      cases j with
      | zero =>
        simp only [List.getElem?_cons_zero, Option.some.injEq] at hj
        subst hj
        simp [forEachFrom, loadSavedState_of_sibling s c m hc, hs m hc]
      | succ j =>
        simp only [List.getElem?_cons_succ] at hj
        simp [forEachFrom, loadSavedState_of_sibling s c m hc, ih (i + 1) j hj]

/-- On a document all of whose checkboxes have a sibling the loop runs to its end: no error,
one listener per position, and the list of checkboxes keeps its length and siblings. -/
theorem forEachFrom_complete (s : Storage) (doc : List Checkbox) (i : Nat)
    (h : ∀ c ∈ doc, c.nextSibling ≠ none) :
    (forEachFrom s i doc).error = none ∧
      (forEachFrom s i doc).page.changeListeners = List.range' i doc.length ∧
      (forEachFrom s i doc).page.checkboxes.map Checkbox.nextSibling =
        doc.map Checkbox.nextSibling := by
  induction doc generalizing i with
  | nil => simp [forEachFrom]
  | cons c rest ih =>
    have hc : c.nextSibling ≠ none := h c (by simp)
    obtain ⟨m, hm⟩ := Option.ne_none_iff_exists'.mp hc
    obtain ⟨h1, h2, h3⟩ := ih (i + 1) fun c1 hc1 => h c1 (List.mem_cons_of_mem _ hc1)
    simp only [forEachFrom, loadSavedState_of_sibling s c m hm, List.map_cons, List.length_cons]
    refine ⟨h1, ?_, ?_⟩
    · simp [h2, List.range'_succ]
    · rw [h3]
      congr 1
      split <;> simp

/-! ### Round trips through the storage -/

/-- C1, refuted as stated. The checkbox labelled `"Item"` follows a checkbox without a
following sibling: the user checks it, the listener stores `"true"`, and on the reload the
handler raises a `TypeError` at the first checkbox, so the second one is never restored and
stays unchecked. -/
theorem check_reload_counterexample :
    onChange [] ⟨true, some ⟨"Item"⟩⟩ = .ok [("Item", "true")] ∧
      ((onDOMContentLoaded [("Item", "true")]
          [⟨false, none⟩, ⟨false, some ⟨"Item"⟩⟩]).page.checkboxes[1]?).map Checkbox.checked =
        some false ∧
      (onDOMContentLoaded [("Item", "true")] [⟨false, none⟩, ⟨false, some ⟨"Item"⟩⟩]).error =
        some .typeError :=
  ⟨rfl, by decide, by decide⟩

/-- C1, amended. Persistence round trip (check): for a checkbox with a following sibling such
that every checkbox before it in the document has a following sibling too, when its change
listener runs with `checked = true` on any storage, it succeeds, and the `DOMContentLoaded`
handler run on the reloaded document with the resulting storage leaves that checkbox checked,
whatever the markup gave it. -/
theorem check_reload_checked (s : Storage) (doc : List Checkbox) (i : Nat) (cb : Checkbox)
    (n : Node) (hi : doc[i]? = some cb) (hn : cb.nextSibling = some n)
    (hpre : ∀ k c, k < i → doc[k]? = some c → c.nextSibling ≠ none) :
    ∃ s1, onChange s { cb with checked := true } = .ok s1 ∧
      ((onDOMContentLoaded s1 doc).page.checkboxes[i]?).map Checkbox.checked = some true := by
  refine ⟨_, onChange_of_sibling s { cb with checked := true } n hn, ?_⟩
  rw [onDOMContentLoaded, forEachFrom_getElem? _ doc 0 i cb n hi hn hpre]
  simp [getItem_setItem_self, booleanToString]

theorem check_reload_checked_witness :
    ∃ s1, onChange [("Other", "true")] { (⟨false, some ⟨" Item "⟩⟩ : Checkbox) with
        checked := true } = .ok s1 ∧
      ((onDOMContentLoaded s1 [⟨false, some ⟨"Other"⟩⟩, ⟨false, some ⟨" Item "⟩⟩]).page.checkboxes[1]?).map
        Checkbox.checked = some true :=
  check_reload_checked [("Other", "true")] [⟨false, some ⟨"Other"⟩⟩, ⟨false, some ⟨" Item "⟩⟩] 1
    ⟨false, some ⟨" Item "⟩⟩ ⟨" Item "⟩ (by decide) rfl (by
      intro k c hk hc
      have hk0 : k = 0 := by omega
      subst hk0
      simp only [List.getElem?_cons_zero, Option.some.injEq] at hc
      subst hc
      simp)

/-- C2, refuted as stated. A checkbox that the markup pre-checks: the user unchecks it, the
listener stores `"false"`, and after the reload the handler leaves it checked. -/
theorem uncheck_reload_counterexample :
    onChange [] ⟨false, some ⟨"Item"⟩⟩ = .ok [("Item", "false")] ∧
      onDOMContentLoaded [("Item", "false")] [⟨true, some ⟨"Item"⟩⟩] =
        ⟨⟨[⟨true, some ⟨"Item"⟩⟩], [0]⟩, none⟩ :=
  ⟨rfl, by decide⟩

/-- C2, amended. Persistence round trip (uncheck): for every storage and every checkbox with a
following sibling, at any position of any document, when its change listener runs with
`checked = false`, it succeeds, and the handler run on the reloaded document with the
resulting storage leaves that checkbox exactly as the markup gave it; so it is unchecked
whenever the markup has it unchecked. -/
theorem uncheck_reload_keeps_markup (s : Storage) (doc : List Checkbox) (i : Nat)
    (cb : Checkbox) (n : Node) (hi : doc[i]? = some cb) (hn : cb.nextSibling = some n) :
    ∃ s1, onChange s { cb with checked := false } = .ok s1 ∧
      (onDOMContentLoaded s1 doc).page.checkboxes[i]? = some cb ∧
      (cb.checked = false →
        ((onDOMContentLoaded s1 doc).page.checkboxes[i]?).map Checkbox.checked = some false) := by
  refine ⟨_, onChange_of_sibling s { cb with checked := false } n hn, ?_⟩
  have h := forEachFrom_keeps (setItem s (trim n.textContent) (booleanToString false)) doc 0 i
    cb hi (by
      intro m hm
      have hmn : m = n := Option.some.inj (hm.symm.trans hn)
      subst hmn
      rw [getItem_setItem_self]
      decide)
  rw [onDOMContentLoaded]
  refine ⟨h, fun hc => ?_⟩
  rw [h]
  simp [hc]

theorem uncheck_reload_keeps_markup_witness :
    ∃ s1, onChange [("Item", "true")] { (⟨false, some ⟨"Item"⟩⟩ : Checkbox) with
        checked := false } = .ok s1 ∧
      (onDOMContentLoaded s1 [⟨false, none⟩, ⟨false, some ⟨"Item"⟩⟩]).page.checkboxes[1]? =
        some ⟨false, some ⟨"Item"⟩⟩ ∧
      ((⟨false, some ⟨"Item"⟩⟩ : Checkbox).checked = false →
        ((onDOMContentLoaded s1 [⟨false, none⟩, ⟨false, some ⟨"Item"⟩⟩]).page.checkboxes[1]?).map
          Checkbox.checked = some false) :=
  uncheck_reload_keeps_markup [("Item", "true")] [⟨false, none⟩, ⟨false, some ⟨"Item"⟩⟩] 1
    ⟨false, some ⟨"Item"⟩⟩ ⟨"Item"⟩ (by decide) rfl

/-! ### Loading -/

/-- C6, refuted as stated. A checkbox that the markup pre-checks stays checked when its key is
absent from the storage, and also when the key is mapped to `"false"`. -/
theorem absent_value_counterexample :
    getItem [] (trim "Item") = none ∧
      onDOMContentLoaded [] [⟨true, some ⟨"Item"⟩⟩] = ⟨⟨[⟨true, some ⟨"Item"⟩⟩], [0]⟩, none⟩ ∧
      onDOMContentLoaded [("Item", "false")] [⟨true, some ⟨"Item"⟩⟩] =
        ⟨⟨[⟨true, some ⟨"Item"⟩⟩], [0]⟩, none⟩ := by
  decide

/-- C6, amended. Absent or malformed stored values: for every checkbox, at any position of any
document, whose key is absent from the storage or mapped to anything but exactly `"true"`,
the handler leaves the checkbox as the markup gave it; so it is unchecked after the handler
has run whenever the markup has it unchecked. -/
theorem not_true_keeps_markup (s : Storage) (doc : List Checkbox) (i : Nat) (cb : Checkbox)
    (n : Node) (hi : doc[i]? = some cb) (hn : cb.nextSibling = some n)
    (hs : getItem s (trim n.textContent) ≠ some "true") :
    (onDOMContentLoaded s doc).page.checkboxes[i]? = some cb ∧
      (cb.checked = false →
        ((onDOMContentLoaded s doc).page.checkboxes[i]?).map Checkbox.checked = some false) := by
  have h := forEachFrom_keeps s doc 0 i cb hi (by
    intro m hm
    have hmn : m = n := Option.some.inj (hm.symm.trans hn)
    subst hmn
    exact hs)
  rw [onDOMContentLoaded]
  refine ⟨h, fun hc => ?_⟩
  rw [h]
  simp [hc]

theorem not_true_keeps_markup_witness :
    (onDOMContentLoaded [("Item", " true")]
        [⟨false, none⟩, ⟨false, some ⟨"Item"⟩⟩]).page.checkboxes[1]? =
        some ⟨false, some ⟨"Item"⟩⟩ ∧
      ((⟨false, some ⟨"Item"⟩⟩ : Checkbox).checked = false →
        ((onDOMContentLoaded [("Item", " true")]
          [⟨false, none⟩, ⟨false, some ⟨"Item"⟩⟩]).page.checkboxes[1]?).map
          Checkbox.checked = some false) :=
  not_true_keeps_markup [("Item", " true")] [⟨false, none⟩, ⟨false, some ⟨"Item"⟩⟩] 1
    ⟨false, some ⟨"Item"⟩⟩ ⟨"Item"⟩ (by decide) rfl (by decide)

/-- C7, refuted as stated. The first checkbox has no following sibling: the handler raises a
`TypeError` there, and the second checkbox, whose key is stored as `"true"`, is neither
looked up (it stays unchecked) nor given a listener. -/
theorem load_counterexample :
    onDOMContentLoaded [("Item", "true")] [⟨false, none⟩, ⟨false, some ⟨"Item"⟩⟩] =
      ⟨⟨[⟨false, none⟩, ⟨false, some ⟨"Item"⟩⟩], []⟩, some .typeError⟩ := by
  decide

/-- C7, amended. Load covers every checkbox: on a document in which every checkbox has a
following sibling, for every storage, the handler ends without error, has registered exactly
one change listener on each position, and has left at each position the checkbox with its
saved state loaded. -/
theorem load_covers (s : Storage) (doc : List Checkbox)
    (h : ∀ c ∈ doc, c.nextSibling ≠ none) :
    (onDOMContentLoaded s doc).error = none ∧
      (onDOMContentLoaded s doc).page.changeListeners = List.range doc.length ∧
      (onDOMContentLoaded s doc).page.checkboxes.length = doc.length ∧
      ∀ (i : Nat) (cb : Checkbox), doc[i]? = some cb →
        ∃ cb1, loadSavedState s cb = .ok cb1 ∧
          (onDOMContentLoaded s doc).page.checkboxes[i]? = some cb1 := by
  obtain ⟨h1, h2, h3⟩ := forEachFrom_complete s doc 0 h
  refine ⟨h1, ?_, ?_, ?_⟩
  · rw [onDOMContentLoaded, h2, List.range_eq_range']
  · have := congrArg List.length h3
    simpa using this
  · intro i cb hi
    have hc : cb.nextSibling ≠ none := h cb (List.getElem?_mem hi)
    obtain ⟨n, hn⟩ := Option.ne_none_iff_exists'.mp hc
    refine ⟨_, loadSavedState_of_sibling s cb n hn, ?_⟩
    exact forEachFrom_getElem? s doc 0 i cb n hi hn fun k c _ hk =>
      h c (List.getElem?_mem hk)

theorem load_covers_witness :
    (onDOMContentLoaded [("B", "true")] [⟨false, some ⟨"A"⟩⟩, ⟨false, some ⟨"B"⟩⟩]).error = none ∧
      (onDOMContentLoaded [("B", "true")] [⟨false, some ⟨"A"⟩⟩, ⟨false, some ⟨"B"⟩⟩]).page.changeListeners
        = List.range 2 :=
  have h := load_covers [("B", "true")] [⟨false, some ⟨"A"⟩⟩, ⟨false, some ⟨"B"⟩⟩] (by decide)
  ⟨h.1, h.2.1⟩

/-! ### What events do to the storage -/

theorem runChangeListeners_keeps (cb : Checkbox) (i : Nat) (ls : List Nat) (s : Storage)
    (other : String) (h : getItem s other ≠ none) :
    getItem (runChangeListeners cb i ls s) other ≠ none := by
  induction ls generalizing s with
  | nil => simpa [runChangeListeners] using h
  | cons l ls ih =>
    by_cases hl : l = i
    · cases hsib : cb.nextSibling with
      | none => simpa [runChangeListeners, hl, onChange, storageKey, hsib] using ih s h
      | some n =>
        simp only [runChangeListeners, hl, if_true, onChange_of_sibling s cb n hsib]
        exact ih _ (getItem_setItem_ne_none s _ _ other h)
    · simpa [runChangeListeners, hl] using ih s h

theorem runChangeListeners_frame (cb : Checkbox) (k : String) (hk : storageKey cb = .ok k)
    (i : Nat) (ls : List Nat) (s : Storage) (other : String) (ho : other ≠ k) :
    getItem (runChangeListeners cb i ls s) other = getItem s other := by
  induction ls generalizing s with
  | nil => simp [runChangeListeners]
  | cons l ls ih =>
    by_cases hl : l = i
    · simp only [runChangeListeners, hl, if_true, onChange, hk]
      rw [ih, getItem_setItem_other s k _ other ho]
    · simpa [runChangeListeners, hl] using ih s

theorem runChangeListeners_values (cb : Checkbox) (i : Nat) (ls : List Nat) (s : Storage)
    (h : ∀ p ∈ s, p.2 = "true" ∨ p.2 = "false") :
    ∀ p ∈ runChangeListeners cb i ls s, p.2 = "true" ∨ p.2 = "false" := by
  induction ls generalizing s with
  | nil => simpa [runChangeListeners] using h
  | cons l ls ih =>
    by_cases hl : l = i
    · cases hsib : cb.nextSibling with
      | none => simpa [runChangeListeners, hl, onChange, storageKey, hsib] using ih s h
      | some n =>
        simp only [runChangeListeners, hl, if_true, onChange_of_sibling s cb n hsib]
        apply ih
        intro p hp
        rcases mem_setItem s _ _ p hp with hp | hp
        · exact h p hp
        · subst hp
          cases cb.checked <;> simp [booleanToString]
    · simpa [runChangeListeners, hl] using ih s h

/-- An event either leaves the storage alone or runs change listeners of one checkbox on it. -/
theorem step_localStorage (b : Browser) (e : Event) :
    (step b e).localStorage = b.localStorage ∨
      ∃ cb i ls, (step b e).localStorage = runChangeListeners cb i ls b.localStorage := by
  cases e with
  | reload markup => exact Or.inl rfl
  | toggle i =>
    simp only [step, toggle, dispatchChange]
    split
    · exact Or.inl rfl
    · exact Or.inr ⟨_, _, _, rfl⟩

theorem run_keeps (b : Browser) (events : List Event) (other : String)
    (h : getItem b.localStorage other ≠ none) :
    getItem (run b events).localStorage other ≠ none := by
  induction events generalizing b with
  | nil => simpa [run] using h
  | cons e es ih =>
    simp only [run, List.foldl_cons]
    apply ih
    rcases step_localStorage b e with h1 | ⟨cb, i, ls, h1⟩
    · rw [h1]; exact h
    · rw [h1]; exact runChangeListeners_keeps cb i ls _ other h

theorem run_values (b : Browser) (events : List Event)
    (h : ∀ p ∈ b.localStorage, p.2 = "true" ∨ p.2 = "false") :
    ∀ p ∈ (run b events).localStorage, p.2 = "true" ∨ p.2 = "false" := by
  induction events generalizing b with
  | nil => simpa [run] using h
  | cons e es ih =>
    simp only [run, List.foldl_cons]
    apply ih
    rcases step_localStorage b e with h1 | ⟨cb, i, ls, h1⟩
    · rw [h1]; exact h
    · rw [h1]; exact runChangeListeners_values cb i ls _ h

/-- C5. Boolean-as-text encoding: the change listener of a checkbox with key `k` succeeds and
leaves under `k` the string `"true"` when the checkbox is checked and `"false"` when it is
not; and from the empty storage, after any sequence of reloads and toggles, every value in
the storage is `"true"` or `"false"`. -/
theorem change_writes_boolean_text (s : Storage) (cb : Checkbox) (k : String)
    (events : List Event) (hk : storageKey cb = .ok k) :
    (∃ s1, onChange s cb = .ok s1 ∧
        getItem s1 k = some (if cb.checked then "true" else "false")) ∧
      ∀ p ∈ (run Browser.initial events).localStorage, p.2 = "true" ∨ p.2 = "false" := by
  constructor
  · refine ⟨setItem s k (booleanToString cb.checked), by simp [onChange, hk], ?_⟩
    rw [getItem_setItem_self]
    rfl
  · exact run_values Browser.initial events (by simp [Browser.initial])

theorem change_writes_boolean_text_witness :
    (∃ s1, onChange [("Item", "no")] ⟨true, some ⟨" Item"⟩⟩ = .ok s1 ∧
        getItem s1 "Item" = some (if (⟨true, some ⟨" Item"⟩⟩ : Checkbox).checked then "true"
          else "false")) ∧
      ∀ p ∈ (run Browser.initial
          [.reload [⟨false, some ⟨" Item"⟩⟩], .toggle 0, .toggle 0]).localStorage,
        p.2 = "true" ∨ p.2 = "false" :=
  change_writes_boolean_text [("Item", "no")] ⟨true, some ⟨" Item"⟩⟩ "Item"
    [.reload [⟨false, some ⟨" Item"⟩⟩], .toggle 0, .toggle 0] rfl

/-- C9. Frame of the change handler: the change listener of a checkbox with key `k` succeeds,
the storage afterwards agrees with the storage before on every key other than `k`, and `k` is
present afterwards; a toggle of a checkbox with key `k` on any page leaves every other key as
it was; and no sequence of reloads and toggles removes a key that is present. -/
theorem change_frame (s : Storage) (cb : Checkbox) (k : String) (b : Browser)
    (events : List Event) (hk : storageKey cb = .ok k) :
    (∃ s1, onChange s cb = .ok s1 ∧
        (∀ other, other ≠ k → getItem s1 other = getItem s other) ∧ getItem s1 k ≠ none) ∧
      (∀ i, b.page.checkboxes[i]? = some cb → ∀ other, other ≠ k →
        getItem (toggle b i).localStorage other = getItem b.localStorage other) ∧
      ∀ key, getItem b.localStorage key ≠ none →
        getItem (run b events).localStorage key ≠ none := by
  refine ⟨?_, ?_, ?_⟩
  · refine ⟨setItem s k (booleanToString cb.checked), by simp [onChange, hk], ?_, ?_⟩
    · intro other ho
      exact getItem_setItem_other s k _ other ho
    · simp [getItem_setItem_self]
  · intro i hi other ho
    have hflip : (flipChecked b.page.checkboxes i)[i]? =
        some { cb with checked := !cb.checked } := by
      rw [flipChecked_getElem?_self, hi]
      rfl
    simp only [toggle, dispatchChange, hflip]
    have hk1 : storageKey { cb with checked := !cb.checked } = .ok k := hk
    exact runChangeListeners_frame _ k hk1 i _ _ other ho
  · intro key hkey
    exact run_keeps b events key hkey

theorem change_frame_witness :
    (∃ s1, onChange [("Other", "true")] ⟨false, some ⟨"Item"⟩⟩ = .ok s1 ∧
        (∀ other, other ≠ "Item" → getItem s1 other = getItem [("Other", "true")] other) ∧
        getItem s1 "Item" ≠ none) ∧
      (∀ i, (Browser.mk [("Other", "true")] ⟨[⟨false, some ⟨"Item"⟩⟩], [0]⟩).page.checkboxes[i]?
          = some ⟨false, some ⟨"Item"⟩⟩ → ∀ other, other ≠ "Item" →
        getItem (toggle (Browser.mk [("Other", "true")] ⟨[⟨false, some ⟨"Item"⟩⟩], [0]⟩)
          i).localStorage other =
          getItem (Browser.mk [("Other", "true")] ⟨[⟨false, some ⟨"Item"⟩⟩], [0]⟩).localStorage
            other) ∧
      ∀ key,
        getItem (Browser.mk [("Other", "true")] ⟨[⟨false, some ⟨"Item"⟩⟩], [0]⟩).localStorage key
          ≠ none →
        getItem (run (Browser.mk [("Other", "true")] ⟨[⟨false, some ⟨"Item"⟩⟩], [0]⟩)
          [.toggle 0, .reload [⟨false, some ⟨"Other"⟩⟩], .toggle 0]).localStorage key ≠ none :=
  change_frame [("Other", "true")] ⟨false, some ⟨"Item"⟩⟩ "Item"
    (Browser.mk [("Other", "true")] ⟨[⟨false, some ⟨"Item"⟩⟩], [0]⟩)
    [.toggle 0, .reload [⟨false, some ⟨"Other"⟩⟩], .toggle 0] rfl

/-! ### Key derivation -/

/-- C4, refuted as stated. Two checkboxes with the same label, the second pre-checked by the
markup: the page loads on an empty storage, the user unchecks the second, the page reloads.
The entry `"Item"` holds `"false"`, the first checkbox is unchecked and the second checked. -/
theorem same_label_counterexample :
    reload (toggle (reload Browser.initial
        [⟨false, some ⟨"Item"⟩⟩, ⟨true, some ⟨"Item"⟩⟩]) 1)
        [⟨false, some ⟨"Item"⟩⟩, ⟨true, some ⟨"Item"⟩⟩] =
      ⟨[("Item", "false")], ⟨[⟨false, some ⟨"Item"⟩⟩, ⟨true, some ⟨"Item"⟩⟩], [0, 1]⟩⟩ := by
  decide

/-- C4, amended. Key derivation and collision: the key of a checkbox is the trimmed text
content of its following sibling, whatever its position and checked state; so for any two
checkboxes `a` and `b` whose label texts are equal after trimming, the keys are equal and the
change listener of `a` writes the entry that the load handler reads for `b`.  After a change
on `a` that leaves it with checked state `v` and a reload, each of the two that the load
handler reaches (every checkbox before it in the document has a following sibling) is
checked iff `v` or the markup pre-checks it. -/
theorem same_label_shares_entry (s : Storage) (doc : List Checkbox) (i j : Nat)
    (a b : Checkbox) (na nb : Node) (v : Bool)
    (hi : doc[i]? = some a) (hj : doc[j]? = some b)
    (ha : a.nextSibling = some na) (hb : b.nextSibling = some nb)
    (hlabel : trim na.textContent = trim nb.textContent) :
    storageKey a = .ok (trim na.textContent) ∧ storageKey b = .ok (trim nb.textContent) ∧
      storageKey a = storageKey b ∧
      ∃ s1, onChange s { a with checked := v } = .ok s1 ∧
        getItem s1 (trim nb.textContent) = some (booleanToString v) ∧
        ((∀ k c, k < i → doc[k]? = some c → c.nextSibling ≠ none) →
          ((onDOMContentLoaded s1 doc).page.checkboxes[i]?).map Checkbox.checked =
            some (v || a.checked)) ∧
        ((∀ k c, k < j → doc[k]? = some c → c.nextSibling ≠ none) →
          ((onDOMContentLoaded s1 doc).page.checkboxes[j]?).map Checkbox.checked =
            some (v || b.checked)) := by
  have hka := storageKey_of_sibling a na ha
  have hkb := storageKey_of_sibling b nb hb
  refine ⟨hka, hkb, by rw [hka, hkb, hlabel], _,
    onChange_of_sibling s { a with checked := v } na ha, ?_, ?_, ?_⟩
  · simp [hlabel, getItem_setItem_self]
  · intro hpre
    rw [onDOMContentLoaded, forEachFrom_getElem? _ doc 0 i a na hi ha hpre]
    cases v <;> simp [getItem_setItem_self, booleanToString]
  · intro hpre
    rw [onDOMContentLoaded, forEachFrom_getElem? _ doc 0 j b nb hj hb hpre]
    cases v <;> simp [hlabel, getItem_setItem_self, booleanToString]

theorem same_label_shares_entry_witness :
    ((onDOMContentLoaded [("Item", "true")]
        [⟨false, some ⟨"Item "⟩⟩, ⟨false, some ⟨" Item"⟩⟩]).page.checkboxes[0]?).map
        Checkbox.checked = some true ∧
      ((onDOMContentLoaded [("Item", "true")]
        [⟨false, some ⟨"Item "⟩⟩, ⟨false, some ⟨" Item"⟩⟩]).page.checkboxes[1]?).map
        Checkbox.checked = some true := by
  obtain ⟨_, _, _, s1, h1, _, h2, h3⟩ :=
    same_label_shares_entry [] [⟨false, some ⟨"Item "⟩⟩, ⟨false, some ⟨" Item"⟩⟩] 0 1
      ⟨false, some ⟨"Item "⟩⟩ ⟨false, some ⟨" Item"⟩⟩ ⟨"Item "⟩ ⟨" Item"⟩ true
      (by decide) (by decide) rfl rfl (by decide)
  have hs1 : s1 = [("Item", "true")] := (Except.ok.inj h1).symm
  subst hs1
  refine ⟨h2 (by intro k c hk; omega), h3 ?_⟩
  intro k c hk hc
  have hk0 : k = 0 := by omega
  subst hk0
  simp only [List.getElem?_cons_zero, Option.some.injEq] at hc
  subst hc
  simp

/-! ### Sequences of toggles on a loaded page -/

theorem runChangeListeners_range' (cb : Checkbox) (n : Node) (hn : cb.nextSibling = some n)
    (i start len : Nat) (s : Storage) :
    runChangeListeners cb i (List.range' start len) s =
      if start ≤ i ∧ i < start + len then
        setItem s (trim n.textContent) (booleanToString cb.checked)
      else s := by
  induction len generalizing start s with
  | zero =>
    have : ¬(start ≤ i ∧ i < start) := by omega
    simp [runChangeListeners, this]
  | succ len ih =>
    rw [List.range'_succ]
    by_cases hs : start = i
    · subst hs
      have h1 : ¬(start + 1 ≤ start ∧ start < start + 1 + len) := by omega
      simp only [runChangeListeners, if_true, onChange_of_sibling s cb n hn, ih, h1,
        if_false]
      simp
    · simp only [runChangeListeners, hs, if_false, ih]
      by_cases h2 : start + 1 ≤ i ∧ i < start + 1 + len
      · have h3 : start ≤ i ∧ i < start + (len + 1) := by omega
        simp [h2, h3]
      · have h3 : ¬(start ≤ i ∧ i < start + (len + 1)) := by omega
        simp [h2, h3]

theorem toggle_page (b : Browser) (i : Nat) :
    (toggle b i).page.checkboxes = flipChecked b.page.checkboxes i ∧
      (toggle b i).page.changeListeners = b.page.changeListeners := by
  simp only [toggle, dispatchChange]
  split <;> simp

/-- A page as the handler leaves it on a document all of whose checkboxes have a sibling, and
as toggles keep it: one listener per position, the siblings of the markup. -/
theorem reload_loaded (b : Browser) (doc : List Checkbox)
    (h : ∀ c ∈ doc, c.nextSibling ≠ none) :
    (reload b doc).page.changeListeners = List.range' 0 doc.length ∧
      (reload b doc).page.checkboxes.map Checkbox.nextSibling =
        doc.map Checkbox.nextSibling := by
  obtain ⟨_, h2, h3⟩ := forEachFrom_complete b.localStorage doc 0 h
  exact ⟨h2, h3⟩

theorem toggle_loaded (b : Browser) (doc : List Checkbox) (i : Nat)
    (h : b.page.changeListeners = List.range' 0 doc.length ∧
      b.page.checkboxes.map Checkbox.nextSibling = doc.map Checkbox.nextSibling) :
    (toggle b i).page.changeListeners = List.range' 0 doc.length ∧
      (toggle b i).page.checkboxes.map Checkbox.nextSibling =
        doc.map Checkbox.nextSibling := by
  obtain ⟨h1, h2⟩ := toggle_page b i
  rw [h1, h2, flipChecked_map_nextSibling]
  exact h

theorem live_checkbox (b : Browser) (doc : List Checkbox) (i : Nat) (c : Checkbox) (n : Node)
    (h : b.page.checkboxes.map Checkbox.nextSibling = doc.map Checkbox.nextSibling)
    (hi : doc[i]? = some c) (hn : c.nextSibling = some n) :
    ∃ cb, b.page.checkboxes[i]? = some cb ∧ cb.nextSibling = some n := by
  have h1 := congrArg (fun l => l[i]?) h
  simp only [List.getElem?_map, hi, Option.map_some'] at h1
  cases hcb : b.page.checkboxes[i]? with
  | none => simp [hcb] at h1
  | some cb =>
    simp only [hcb, Option.map_some', Option.some.injEq] at h1
    exact ⟨cb, rfl, h1.trans hn⟩

/-- On a loaded page, toggling the checkbox at position `i` flips it and stores its new state
under its key. -/
theorem toggle_stores (b : Browser) (doc : List Checkbox) (i : Nat) (c : Checkbox) (n : Node)
    (h : b.page.changeListeners = List.range' 0 doc.length ∧
      b.page.checkboxes.map Checkbox.nextSibling = doc.map Checkbox.nextSibling)
    (hi : doc[i]? = some c) (hn : c.nextSibling = some n) :
    ∃ cb, b.page.checkboxes[i]? = some cb ∧
      (toggle b i).page.checkboxes[i]? = some { cb with checked := !cb.checked } ∧
      (toggle b i).localStorage =
        setItem b.localStorage (trim n.textContent) (booleanToString (!cb.checked)) := by
  obtain ⟨cb, hcb, hcbn⟩ := live_checkbox b doc i c n h.2 hi hn
  have hlt : i < doc.length := by
    by_contra hcon
    rw [List.getElem?_eq_none (by omega)] at hi
    exact absurd hi (by simp)
  refine ⟨cb, hcb, ?_, ?_⟩
  · rw [(toggle_page b i).1, flipChecked_getElem?_self, hcb]
    rfl
  · have hflip : (flipChecked b.page.checkboxes i)[i]? =
        some { cb with checked := !cb.checked } := by
      rw [flipChecked_getElem?_self, hcb]
      rfl
    simp only [toggle, dispatchChange, hflip, h.1]
    rw [runChangeListeners_range' { cb with checked := !cb.checked } n hcbn]
    simp [hlt]

/-- On a loaded page with pairwise distinct keys, toggling the checkbox at position `j`
changes neither the checkbox at another position `i` nor the entry of its key. -/
theorem toggle_other (b : Browser) (doc : List Checkbox) (i j : Nat) (c : Checkbox) (n : Node)
    (h : b.page.changeListeners = List.range' 0 doc.length ∧
      b.page.checkboxes.map Checkbox.nextSibling = doc.map Checkbox.nextSibling)
    (hsib : ∀ c ∈ doc, c.nextSibling ≠ none)
    (hdistinct : (doc.map fun c => c.nextSibling.map fun n => trim n.textContent).Nodup)
    (hi : doc[i]? = some c) (hn : c.nextSibling = some n) (hji : j ≠ i) :
    (toggle b j).page.checkboxes[i]? = b.page.checkboxes[i]? ∧
      getItem (toggle b j).localStorage (trim n.textContent) =
        getItem b.localStorage (trim n.textContent) := by
  refine ⟨by rw [(toggle_page b j).1, flipChecked_getElem?_other _ _ _ (Ne.symm hji)], ?_⟩
  cases hj : doc[j]? with
  | none =>
    have hnone : (flipChecked b.page.checkboxes j)[j]? = none := by
      have h1 := congrArg (fun l => l[j]?) h.2
      simp only [List.getElem?_map, hj, Option.map_none', Option.map_eq_none'] at h1
      rw [flipChecked_getElem?_self, h1]
      rfl
    simp [toggle, dispatchChange, hnone]
  | some cj =>
    obtain ⟨m, hm⟩ := Option.ne_none_iff_exists'.mp (hsib cj (List.getElem?_mem hj))
    obtain ⟨cb, _, _, hst⟩ := toggle_stores b doc j cj m h hj hm
    rw [hst]
    apply getItem_setItem_other
    intro hkey
    have hlti : i < doc.length := by
      by_contra hcon
      rw [List.getElem?_eq_none (by omega)] at hi
      exact absurd hi (by simp)
    have hltj : j < doc.length := by
      by_contra hcon
      rw [List.getElem?_eq_none (by omega)] at hj
      exact absurd hj (by simp)
    have hne := List.nodup_iff_getElem?_ne_getElem?.mp hdistinct
    rcases Nat.lt_or_gt_of_ne hji with hlt | hlt
    · apply hne j i hlt (by simpa using hlti)
      simp [List.getElem?_map, hi, hj, hn, hm, hkey]
    · apply hne i j hlt (by simpa using hltj)
      simp [List.getElem?_map, hi, hj, hn, hm, hkey]

theorem run_toggles_loaded (b : Browser) (doc : List Checkbox) (toggles : List Nat)
    (h : b.page.changeListeners = List.range' 0 doc.length ∧
      b.page.checkboxes.map Checkbox.nextSibling = doc.map Checkbox.nextSibling) :
    (run b (toggles.map Event.toggle)).page.changeListeners = List.range' 0 doc.length ∧
      (run b (toggles.map Event.toggle)).page.checkboxes.map Checkbox.nextSibling =
        doc.map Checkbox.nextSibling := by
  induction toggles generalizing b with
  | nil => simpa [run] using h
  | cons j js ih =>
    simp only [List.map_cons, run, List.foldl_cons, step]
    exact ih (toggle b j) (toggle_loaded b doc j h)

/-- Toggles at positions other than `i` leave the checkbox at `i` and its entry alone. -/
theorem run_toggles_other (b : Browser) (doc : List Checkbox) (toggles : List Nat) (i : Nat)
    (c : Checkbox) (n : Node)
    (h : b.page.changeListeners = List.range' 0 doc.length ∧
      b.page.checkboxes.map Checkbox.nextSibling = doc.map Checkbox.nextSibling)
    (hsib : ∀ c ∈ doc, c.nextSibling ≠ none)
    (hdistinct : (doc.map fun c => c.nextSibling.map fun n => trim n.textContent).Nodup)
    (hi : doc[i]? = some c) (hn : c.nextSibling = some n) (hnot : i ∉ toggles) :
    (run b (toggles.map Event.toggle)).page.checkboxes[i]? = b.page.checkboxes[i]? ∧
      getItem (run b (toggles.map Event.toggle)).localStorage (trim n.textContent) =
        getItem b.localStorage (trim n.textContent) := by
  induction toggles generalizing b with
  | nil => simp [run]
  | cons j js ih =>
    have hji : j ≠ i := fun hji => hnot (by simp [hji])
    have hjs : i ∉ js := fun hmem => hnot (List.mem_cons_of_mem _ hmem)
    obtain ⟨h1, h2⟩ := toggle_other b doc i j c n h hsib hdistinct hi hn hji
    obtain ⟨h3, h4⟩ := ih (toggle b j) (toggle_loaded b doc j h) hjs
    simp only [List.map_cons, run, List.foldl_cons, step]
    exact ⟨h3.trans h1, h4.trans h2⟩

theorem reload_page (b : Browser) (doc : List Checkbox) :
    (reload b doc).page = (forEachFrom b.localStorage 0 doc).page :=
  rfl

theorem run_append (b : Browser) (es fs : List Event) :
    run b (es ++ fs) = run (run b es) fs := by
  simp [run, List.foldl_append]

/-- C8. Last write wins: on a document whose checkboxes all have a following sibling, have
pairwise distinct trimmed label texts and are unchecked in the markup, loaded on any storage,
let the user perform the toggles `pre`, then toggle the checkbox at position `i`, then perform
the toggles `post`, none of which is on `i`.  The checked state `v` that the last toggle of
`i` left it in is still its live state at the end, and it is the state the checkbox has after
a reload. -/
theorem last_toggle_wins (b0 : Browser) (doc : List Checkbox) (pre post : List Nat) (i : Nat)
    (hsib : ∀ c ∈ doc, c.nextSibling ≠ none)
    (hdistinct : (doc.map fun c => c.nextSibling.map fun n => trim n.textContent).Nodup)
    (hunchecked : ∀ c ∈ doc, c.checked = false)
    (hi : i < doc.length) (hlast : i ∉ post) :
    ∃ v : Bool,
      ((run (reload b0 doc) ((pre ++ [i]).map Event.toggle)).page.checkboxes[i]?).map
          Checkbox.checked = some v ∧
        ((run (reload b0 doc) ((pre ++ i :: post).map Event.toggle)).page.checkboxes[i]?).map
          Checkbox.checked = some v ∧
        ((reload (run (reload b0 doc) ((pre ++ i :: post).map Event.toggle))
          doc).page.checkboxes[i]?).map Checkbox.checked = some v := by
  obtain ⟨c, hc⟩ : ∃ c, doc[i]? = some c := ⟨doc[i], List.getElem?_eq_getElem hi⟩
  obtain ⟨n, hn⟩ := Option.ne_none_iff_exists'.mp (hsib c (List.getElem?_mem hc))
  have hload1 := run_toggles_loaded (reload b0 doc) doc pre (reload_loaded b0 doc hsib)
  obtain ⟨cb, _, hflip, hst⟩ :=
    toggle_stores (run (reload b0 doc) (pre.map Event.toggle)) doc i c n hload1 hc hn
  have hload2 := toggle_loaded (run (reload b0 doc) (pre.map Event.toggle)) doc i hload1
  obtain ⟨hsame, hentry⟩ :=
    run_toggles_other (toggle (run (reload b0 doc) (pre.map Event.toggle)) i) doc post i c n
      hload2 hsib hdistinct hc hn hlast
  have hpre : run (reload b0 doc) ((pre ++ [i]).map Event.toggle) =
      toggle (run (reload b0 doc) (pre.map Event.toggle)) i := by
    rw [List.map_append, run_append]
    rfl
  have hall : run (reload b0 doc) ((pre ++ i :: post).map Event.toggle) =
      run (toggle (run (reload b0 doc) (pre.map Event.toggle)) i) (post.map Event.toggle) := by
    rw [List.map_append, run_append]
    rfl
  refine ⟨!cb.checked, ?_, ?_, ?_⟩
  · rw [hpre, hflip]
    rfl
  · rw [hall, hsame, hflip]
    rfl
  · rw [hall, reload_page, forEachFrom_getElem? _ doc 0 i c n hc hn fun k c1 _ hk =>
      hsib c1 (List.getElem?_mem hk)]
    rw [hentry, hst, getItem_setItem_self]
    have hcu : c.checked = false := hunchecked c (List.getElem?_mem hc)
    cases hv : cb.checked <;> simp [booleanToString, hcu]

theorem last_toggle_wins_witness :
    ∃ v : Bool,
      ((run (reload ⟨[("B", "true")], ⟨[], []⟩⟩
          [⟨false, some ⟨"A"⟩⟩, ⟨false, some ⟨"B"⟩⟩])
          (([0, 1] ++ [1]).map Event.toggle)).page.checkboxes[1]?).map
          Checkbox.checked = some v ∧
        ((run (reload ⟨[("B", "true")], ⟨[], []⟩⟩
          [⟨false, some ⟨"A"⟩⟩, ⟨false, some ⟨"B"⟩⟩])
          (([0, 1] ++ 1 :: [0, 0]).map Event.toggle)).page.checkboxes[1]?).map
          Checkbox.checked = some v ∧
        ((reload (run (reload ⟨[("B", "true")], ⟨[], []⟩⟩
          [⟨false, some ⟨"A"⟩⟩, ⟨false, some ⟨"B"⟩⟩])
          (([0, 1] ++ 1 :: [0, 0]).map Event.toggle))
          [⟨false, some ⟨"A"⟩⟩, ⟨false, some ⟨"B"⟩⟩]).page.checkboxes[1]?).map
          Checkbox.checked = some v :=
  last_toggle_wins ⟨[("B", "true")], ⟨[], []⟩⟩ [⟨false, some ⟨"A"⟩⟩, ⟨false, some ⟨"B"⟩⟩]
    [0, 1] [0, 0] 1 (by decide) (by decide) (by decide) (by decide) (by decide)

end Persist

/-! ## Facts about the notification widget -/

namespace Notify

theorem runClickListeners_forEachFrom (target : Checkbox) (i s : Nat) (doc : List Checkbox) :
    runClickListeners target i (forEachFrom s doc) =
      if s ≤ i ∧ i < s + doc.length then [onClick target] else [] := by
  induction doc generalizing s with
  | nil =>
    have : ¬(s ≤ i ∧ i < s + 0) := by omega
    simp [forEachFrom, runClickListeners, this]
  | cons c rest ih =>
    by_cases hs : s = i
    · subst hs
      have h1 : ¬(s + 1 ≤ s ∧ s < s + 1 + rest.length) := by omega
      simp [forEachFrom, runClickListeners, ih, h1]
    · simp only [forEachFrom, runClickListeners, hs, if_false, ih, List.length_cons]
      by_cases h2 : s + 1 ≤ i ∧ i < s + 1 + rest.length
      · have h3 : s ≤ i ∧ i < s + (rest.length + 1) := by omega
        simp [h2, h3]
      · have h3 : ¬(s ≤ i ∧ i < s + (rest.length + 1)) := by omega
        simp [h2, h3]

theorem onClick_eq (target : Checkbox) :
    onClick target = if target.checked then "Item completed!" else "Item unchecked!" := by
  cases h : target.checked
  · simp only [onClick, h]; decide
  · simp only [onClick, h]; decide

/-- C3. Click notification: listeners are registered on the checkboxes `doc` present at load
time; whatever the live checked states of these checkboxes are later (`live`), a click on the
one at position `i`, leaving it in state `target`, raises exactly one alert, whose text is
`"Item completed!"` when `target` is checked and `"Item unchecked!"` when it is not. -/
theorem click_raises_one_alert (doc live : List Checkbox) (i : Nat) (target : Checkbox)
    (hlen : live.length = doc.length) (ht : (flipChecked live i)[i]? = some target) :
    click live (onDOMContentLoaded doc) i =
      [if target.checked then "Item completed!" else "Item unchecked!"] := by
  have hi : i < doc.length := by
    have h1 : i < (flipChecked live i).length := by
      by_contra hcon
      rw [List.getElem?_eq_none (by omega)] at ht
      exact absurd ht (by simp)
    rw [flipChecked_length] at h1
    omega
  simp only [click, ht, onDOMContentLoaded, runClickListeners_forEachFrom]
  simp [hi, onClick_eq]

theorem click_raises_one_alert_witness :
    click [⟨false, none⟩, ⟨true, some ⟨"Item"⟩⟩]
        (onDOMContentLoaded [⟨false, none⟩, ⟨false, some ⟨"Item"⟩⟩]) 1 =
      [if (⟨false, some ⟨"Item"⟩⟩ : Checkbox).checked then "Item completed!"
        else "Item unchecked!"] :=
  click_raises_one_alert [⟨false, none⟩, ⟨false, some ⟨"Item"⟩⟩]
    [⟨false, none⟩, ⟨true, some ⟨"Item"⟩⟩] 1 ⟨false, some ⟨"Item"⟩⟩ rfl (by decide)

end Notify

end Checklist

/-! ## Facts about the search index -/

namespace SearchIndex

/-- C10. Search index coordinates are valid: `docnames`, `filenames` and `titles` all have
length 16, and every document number occurring in `alltitles` and in `titleterms` is below
that length, so it is the position of an entry of `docnames`. -/
theorem index_coordinates_valid :
    docnames.length = 16 ∧ filenames.length = 16 ∧ titles.length = 16 ∧
      (∀ entry ∈ alltitles, ∀ occurrence ∈ entry.2, occurrence.1 < docnames.length) ∧
      (∀ entry ∈ titleterms, ∀ d ∈ entry.2.docs, d < docnames.length) ∧
      (∀ d ∈ alltitlesDocs, (docnames[d]?).isSome) ∧
      (∀ d ∈ titletermsDocs, (docnames[d]?).isSome) := by
  refine ⟨by decide, by decide, by decide, by decide, by decide, by decide, by decide⟩

end SearchIndex
